import Mathlib

/-!
Verification of the price-resolution and order-parameter logic of the
tws-auto-trader repository.

The Python sources are shallowly embedded over exact rationals:
* Python floats that carry quote data are modelled by `PFloat`
  (a rational number or NaN); an absent field (`None`) behaves exactly
  like NaN in every guard of the embedded code (`_ok_number`,
  `math.isfinite`, midpoint arithmetic), so both are modelled by
  `PFloat.nan`.
* Python `round(x, 2)` (round half to even on the value) is modelled by
  `pyRound2`, built from `roundHalfEven` on rationals.
* I/O results (tickers observed after a market-data subscription,
  historical bars, option-chain picks) are passed in as explicit data,
  so each embedded function is the pure decision logic of its source.
-/

/-- Model of a Python float as used by the quote paths: either NaN (which
also stands for an absent `None` field, since every embedded guard treats
the two identically) or a finite rational value. -/
inductive PFloat where
  | nan : PFloat
  | num (q : ℚ) : PFloat
deriving DecidableEq

/-- Numeric value of a `PFloat` (0 for NaN; only ever read under a
validity guard). -/
def PFloat.val : PFloat → ℚ
  | .nan => 0
  | .num q => q

/-- Embedding of `_ok_number` (src/src/price.py lines 37-45): a value is
usable iff it is a number that is not NaN and not -1.0.  Note that zero
and negative values other than -1.0 pass this check. -/
def _ok_number : PFloat → Bool
  | .nan => false
  | .num q => q ≠ -1

/-- Embedding of the finite-and-positive acceptance test used by
`_underlying_price` (src/src/ib/options.py line 125):
`px is not None and math.isfinite(px) and px > 0`. -/
def pos_number : PFloat → Bool
  | .nan => false
  | .num q => 0 < q

/-- Quote snapshot ticker, per spec §3: last trade, bid, ask, previous
close, plus the vendor-computed market-price and midpoint convenience
values (computed by the ib_insync library, outside this repository, so
modelled as snapshot fields). -/
structure Ticker where
  last : PFloat
  bid : PFloat
  ask : PFloat
  close : PFloat
  marketPrice : PFloat
  midpoint : PFloat
deriving DecidableEq

/-- First value in the list passing `_ok_number` (the `for x in (...)`
loop of `safe_price`). -/
def firstOkVal : List PFloat → Option ℚ
  | [] => none
  | x :: xs => if _ok_number x then some x.val else firstOkVal xs

/-- First value in the list passing the finite-and-positive test (the
`for px in candidates` loop of `_underlying_price`). -/
def firstPosVal : List PFloat → Option ℚ
  | [] => none
  | x :: xs => if pos_number x then some x.val else firstPosVal xs

/-- Embedding of `safe_price` (src/src/price.py lines 48-59): on a
ticker, try `t.marketPrice()` first, then `t.midpoint()`, `t.last`,
`t.close`, returning the first value accepted by `_ok_number`; `None`
ticker gives `None`. -/
def safe_price : Option Ticker → Option ℚ
  | none => none
  | some t =>
    if _ok_number t.marketPrice then some t.marketPrice.val
    else firstOkVal [t.midpoint, t.last, t.close]

/-- Embedding of the midpoint candidate built inline by
`_underlying_price` (src/src/ib/options.py lines 114-116): `None` when
bid or ask is absent, otherwise `(bid + ask) / 2` (NaN inputs propagate
to NaN, which the acceptance test rejects, exactly as in the source). -/
def candMid (bid ask : PFloat) : PFloat :=
  match bid, ask with
  | .num b, .num a => .num ((b + a) / 2)
  | _, _ => .nan

/-- Embedding of the candidate scan of `_underlying_price`
(src/src/ib/options.py lines 112-128): candidates are
`last`, `(bid+ask)/2`, `close`, `marketPrice()` in that order and the
first finite, strictly positive one is returned; `none` models the
`RuntimeError` raised when no candidate qualifies. -/
def underlying_price (t : Ticker) : Option ℚ :=
  firstPosVal [t.last, candMid t.bid t.ask, t.close, t.marketPrice]

/-- Modelled from the spec (claim C5 wording, spec §4.1 step 1b and the
§3 usability invariant): extraction precedence "last trade → midpoint of
bid/ask (only if both present and positive) → previous close →
vendor-computed market price", each candidate accepted when finite and
strictly positive.  Used only to compare the spec's claimed order with
the source's `safe_price`. -/
def spec_precedence_extract (t : Ticker) : Option ℚ :=
  let mid : PFloat :=
    match t.bid, t.ask with
    | .num b, .num a => if 0 < b ∧ 0 < a then .num ((b + a) / 2) else .nan
    | _, _ => .nan
  firstPosVal [t.last, mid, t.close, t.marketPrice]

/-- One historical daily bar (only its close is read by the source). -/
structure Bar where
  close : PFloat
deriving DecidableEq

/-- Embedding of `_hist_close` (src/src/price.py lines 78-98): take the
last bar, accept its close when it is a number that is not NaN and not
-1.0; otherwise `None`. -/
def _hist_close (bars : List Bar) : Option ℚ :=
  match bars.getLast? with
  | none => none
  | some b =>
    match b.close with
    | .nan => none
    | .num q => if q = -1 then none else some q

/-- Source tag recorded in `_LAST_META` by `get_prices`
(src/src/price.py lines 142 and 149): the Python strings
"TOP(md_type=...)" and "HIST(1D close, RTH)". -/
inductive PriceSource where
  | top (md : ℕ)
  | hist
deriving DecidableEq

/-- Market-data environment for `get_prices`: the ticker observed after
subscribing a symbol at a given md_type and waiting, and the historical
daily bars of a symbol.  These stand for the IB gateway I/O. -/
structure DataSource where
  ticker : String → ℕ → Option Ticker
  histBars : String → List Bar

/-- Embedding of the md_type trial order of `get_prices`
(src/src/price.py line 117): the caller's `delay_type` first, then
4, 1, 2 with `delay_type` removed. -/
def md_try (delay_type : ℕ) : List ℕ :=
  delay_type :: ([4, 1, 2].filter (fun x => x ≠ delay_type))

/-- The TOP (streaming) loop of `get_prices` (src/src/price.py lines
127-143): try each md_type in order; stop at the first whose ticker
yields a `safe_price`. -/
def tryTop (ds : DataSource) (s : String) : List ℕ → Option (ℚ × ℕ)
  | [] => none
  | md :: rest =>
    match safe_price (ds.ticker s md) with
    | some p => some (p, md)
    | none => tryTop ds s rest

/-- Per-symbol body of `get_prices` (src/src/price.py lines 122-154):
streaming attempts in `md_try` order, then the historical 1-day close
fallback; result price together with the recorded source tag. -/
def getPriceOne (ds : DataSource) (s : String) (delay_type : ℕ) :
    Option ℚ × Option PriceSource :=
  match tryTop ds s (md_try delay_type) with
  | some (p, md) => (some p, some (.top md))
  | none =>
    match _hist_close (ds.histBars s) with
    | some c => (some c, some .hist)
    | none => (none, none)

/-- Embedding of `get_prices` (src/src/price.py lines 106-156): map the
per-symbol resolution over the requested symbols, keeping each symbol's
price and source tag. -/
def get_prices (ds : DataSource) (symbols : List String) (delay_type : ℕ) :
    List (String × Option ℚ × Option PriceSource) :=
  symbols.map (fun s => (s, getPriceOne ds s delay_type))

/-- Python `round(x)` to an integer: round half to even. -/
def roundHalfEven (x : ℚ) : ℤ :=
  if x - Int.floor x < 1 / 2 then Int.floor x
  else if 1 / 2 < x - Int.floor x then Int.floor x + 1
  else if 2 ∣ Int.floor x then Int.floor x else Int.floor x + 1

/-- Python `round(x, 2)`: scale by 100, round half to even, scale back. -/
def pyRound2 (x : ℚ) : ℚ :=
  (roundHalfEven (x * 100) : ℚ) / 100

theorem roundHalfEven_mem (x : ℚ) :
    roundHalfEven x = Int.floor x ∨ roundHalfEven x = Int.floor x + 1 := by
  unfold roundHalfEven
  split_ifs <;> simp

theorem roundHalfEven_ge (x : ℚ) : x - 1 / 2 ≤ (roundHalfEven x : ℚ) := by
  have h0 : ((Int.floor x : ℤ) : ℚ) ≤ x := Int.floor_le x
  have h1 : x < ((Int.floor x : ℤ) : ℚ) + 1 := Int.lt_floor_add_one x
  unfold roundHalfEven
  split_ifs <;> push_cast <;> linarith

theorem roundHalfEven_le (x : ℚ) : (roundHalfEven x : ℚ) ≤ x + 1 / 2 := by
  have h0 : ((Int.floor x : ℤ) : ℚ) ≤ x := Int.floor_le x
  have h1 : x < ((Int.floor x : ℤ) : ℚ) + 1 := Int.lt_floor_add_one x
  unfold roundHalfEven
  split_ifs with hlt hgt <;> push_cast <;> linarith

theorem roundHalfEven_mono {x y : ℚ} (hxy : x ≤ y) :
    roundHalfEven x ≤ roundHalfEven y := by
  have hf : Int.floor x ≤ Int.floor y := Int.floor_mono hxy
  rcases lt_or_eq_of_le hf with hlt | heq
  · rcases roundHalfEven_mem x with hx | hx <;>
      rcases roundHalfEven_mem y with hy | hy <;> omega
  · unfold roundHalfEven
    rw [heq]
    split_ifs <;> first | omega | linarith

theorem pyRound2_mono {x y : ℚ} (h : x ≤ y) : pyRound2 x ≤ pyRound2 y := by
  unfold pyRound2
  have h100 : x * 100 ≤ y * 100 := by linarith
  have := roundHalfEven_mono h100
  have hc : ((roundHalfEven (x * 100) : ℤ) : ℚ) ≤ ((roundHalfEven (y * 100) : ℤ) : ℚ) := by
    exact_mod_cast this
  linarith

theorem pyRound2_ge (x : ℚ) : x - 1 / 200 ≤ pyRound2 x := by
  unfold pyRound2
  have h := roundHalfEven_ge (x * 100)
  linarith

theorem pyRound2_le (x : ℚ) : pyRound2 x ≤ x + 1 / 200 := by
  unfold pyRound2
  have h := roundHalfEven_le (x * 100)
  linarith

/-- Embedding of `decide_lmt_stop_take` (src/src/ib/orders.py lines
165-181): limit = round(ref * (1 + bps/10000), 2),
stop = round(ref * (1 - stop_pct), 2),
take = round(ref * (1 + take_profit_pct), 2) when configured. -/
def decide_lmt_stop_take (reference_price : ℚ) (slippage_bps : ℤ)
    (stop_pct : ℚ) (take_profit_pct : Option ℚ) : ℚ × ℚ × Option ℚ :=
  let lmt := pyRound2 (reference_price * (1 + (slippage_bps : ℚ) / 10000))
  let stp := pyRound2 (reference_price * (1 - stop_pct))
  let tpf := take_profit_pct.map (fun t => pyRound2 (reference_price * (1 + t)))
  (lmt, stp, tpf)

/-- Embedding of the stop price computed by the `stop_pct` order helper
(src/src/ib/orders.py lines 100-104): SELL stop is
round(ref * (1 - pct), 2), BUY stop is round(ref * (1 + pct), 2);
`sell` is true when `side_for_stop` is omitted (long default). -/
def stop_pct_price (reference_price pct : ℚ) (sell : Bool) : ℚ :=
  if sell then pyRound2 (reference_price * (1 - pct))
  else pyRound2 (reference_price * (1 + pct))

/-- Orders constructed by `run_covered_call`: the LMT stock buy, the
protective stop sell, and the covered-call sell leg. -/
inductive CCOrder where
  | buyLimit (qty : ℤ) (price : ℚ)
  | stopSell (qty : ℤ) (price : ℚ)
  | sellCall (qty : ℤ) (strike : ℚ) (expiry : String)
deriving DecidableEq

/-- Result of `pick_option_contract` as consumed by `run_covered_call`
(strike and expiry of the selected option). -/
structure OptPick where
  strike : ℚ
  expiry : String
deriving DecidableEq

/-- Embedding of the decision flow of `run_covered_call`
(src/src/ib/orders.py lines 187-250), returning the list of orders it
constructs.  `pick` stands for the outcome of the I/O-bound
`pick_option_contract` call (`Except.error` models its exception).
No reference price, a non-positive reference price, or a budget giving
zero shares each returns with no orders; otherwise the LMT buy and the
stop sell are built, and the call leg is built when at least 100 shares
are bought and the option pick succeeds. -/
def run_covered_call (budget_usd : ℚ) (stop_pct_value : ℚ)
    (manual_price : Option ℚ) (entry_slippage_bps : ℤ)
    (pick : Except String OptPick) : List CCOrder :=
  match manual_price with
  | none => []
  | some ref =>
    if ref ≤ 0 then []
    else
      let qty_shares : ℤ := Int.floor (budget_usd / ref)
      if qty_shares ≤ 0 then []
      else
        let lmt_price := (decide_lmt_stop_take ref entry_slippage_bps stop_pct_value none).1
        let stock_legs : List CCOrder :=
          [.buyLimit qty_shares lmt_price,
           .stopSell qty_shares (stop_pct_price ref stop_pct_value true)]
        let qty_calls : ℤ := qty_shares / 100
        if qty_calls ≤ 0 then stock_legs
        else
          match pick with
          | .error _ => stock_legs
          | .ok pk => stock_legs ++ [.sellCall qty_calls pk.strike pk.expiry]

/-- Embedding of `_calc_limit_from_mark` (src/src/ib/uvix_p_plus.py
lines 374-382): for BUY, round(mark * (1 + bps/10000), 2), bumped to
round(mark + 0.01, 2) whenever the rounded value is not strictly above
the mark; for any other side, round(mark * (1 - bps/10000), 2).
The `side.upper()` normalization is modelled by taking the side already
upper-cased. -/
def _calc_limit_from_mark (mark : ℚ) (side : String) (bps : ℤ) : ℚ :=
  if side = "BUY" then
    if pyRound2 (mark * (1 + (bps : ℚ) / 10000)) ≤ mark then
      pyRound2 (mark + 1 / 100)
    else pyRound2 (mark * (1 + (bps : ℚ) / 10000))
  else pyRound2 (mark * (1 - (bps : ℚ) / 10000))

/-- An order as constructed by `place_uvix_p_plus_order`:
`price` is the limit price for LMT orders and the stop trigger for STP
orders (`none` for MKT). -/
structure UvixOrder where
  action : String
  orderType : String
  qty : ℤ
  price : Option ℚ
  tif : String
  transmit : Bool
deriving DecidableEq

/-- Constructed-order summary returned by the dry-run branch of
`place_uvix_p_plus_order` (src/src/ib/uvix_p_plus.py lines 497-508),
together with the parent and child orders built at lines 467-495. -/
structure UvixResult where
  qty : ℤ
  limit : Option ℚ
  stop : Option ℚ
  parent : UvixOrder
  children : List UvixOrder
deriving DecidableEq

/-- Order assembly of `place_uvix_p_plus_order` (src/src/ib/uvix_p_plus.py
lines 467-495): parent BUY (MKT or LMT with the resolved limit), an
optional STOP SELL child at round(mark * (1 - stop_loss_pct), 2) with
tif GTC, and the parent/child transmit flags (parent transmits only
when it has no children; the last child transmits). -/
def uvix_assemble (q : ℤ) (isLmt : Bool) (limit_v : ℚ)
    (stop_loss_pct : Option ℚ) (tif : String) (mark : ℚ) : UvixResult :=
  let stopPx : Option ℚ :=
    match stop_loss_pct with
    | some sp => if 0 < sp then some (pyRound2 (mark * (1 - sp))) else none
    | none => none
  let children : List UvixOrder :=
    match stopPx with
    | some px => [⟨"SELL", "STP", q, some px, "GTC", true⟩]
    | none => []
  let parent : UvixOrder :=
    ⟨"BUY", if isLmt then "LMT" else "MKT", q,
      if isLmt then some limit_v else none, tif, children.isEmpty⟩
  ⟨q, if isLmt then some limit_v else none, stopPx, parent, children⟩

/-- Quantity resolution of `place_uvix_p_plus_order`
(src/src/ib/uvix_p_plus.py lines 449-466): an explicit `qty` is used
as-is; otherwise the budget is required to be positive and the quantity
is int(max(1, budget // ref_px)) where ref_px is the limit price for
LMT orders and the mark otherwise. -/
def uvix_build (qty0 : Option ℤ) (budget : Option ℚ) (isLmt : Bool)
    (limit_v : ℚ) (stop_loss_pct : Option ℚ) (tif : String) (mark : ℚ) :
    Except String UvixResult :=
  match qty0 with
  | some q => .ok (uvix_assemble q isLmt limit_v stop_loss_pct tif mark)
  | none =>
    match budget with
    | none => .error "qty or budget required"
    | some b =>
      if b ≤ 0 then .error "qty or budget required"
      else
        let refPx : ℚ := if isLmt then limit_v else mark
        .ok (uvix_assemble (max 1 (Int.floor (b / refPx))) isLmt limit_v
          stop_loss_pct tif mark)

/-- Embedding of the order-decision core of `place_uvix_p_plus_order`
(src/src/ib/uvix_p_plus.py lines 430-508), given the mark price already
resolved (connection, contract qualification and .env resolution at
lines 407-427 are I/O and out of scope).  LMT limit precedence:
explicit `limit_price`, then round(mark * (1 + limit_from_mark_pct), 2),
then `_calc_limit_from_mark`; the limit must be positive
(`ensure_positive`).  Unknown order types raise (`ValueError`).
The `(order_type or "LMT").upper()` normalization is modelled by taking
the order type already upper-cased. -/
def place_uvix_p_plus_core (qty0 : Option ℤ) (budget : Option ℚ)
    (order_type : String) (limit_price : Option ℚ)
    (limit_from_mark_pct : Option ℚ) (limit_slippage_bps : ℤ)
    (stop_loss_pct : Option ℚ) (tif : String) (mark : ℚ) :
    Except String UvixResult :=
  let ot := order_type
  if ot = "LMT" then
    let lv : ℚ :=
      match limit_price with
      | some lp => lp
      | none =>
        match limit_from_mark_pct with
        | some p => pyRound2 (mark * (1 + p))
        | none => _calc_limit_from_mark mark "BUY" limit_slippage_bps
    if lv ≤ 0 then .error "limit is not positive"
    else uvix_build qty0 budget true lv stop_loss_pct tif mark
  else if ot = "MKT" then
    uvix_build qty0 budget false 0 stop_loss_pct tif mark
  else .error "order_type must be MKT or LMT"

/-- An order as constructed by `bracket_buy_with_stop`
(src/src/ib/orders.py lines 122-161). -/
structure BOrder where
  action : String
  orderType : String
  totalQuantity : ℚ
  tif : String
  lmtPrice : Option ℚ
  auxPrice : Option ℚ
  outsideRth : Bool
  parentId : Option ℤ
deriving DecidableEq

/-- Embedding of `bracket_buy_with_stop` (src/src/ib/orders.py lines
122-161).  The result pairs the returned triple (parent, child,
parent-trade id or `none`) with the trace of `placeOrder` submissions
(empty when nothing was sent to the venue).  The LMT assertion
(`lmt_price` required when `entry_type` is "LMT") is modelled as
`Except.error`; `venue_parent_id` stands for the order id the venue
assigns to the submitted parent, copied into the child's `parentId`. -/
def bracket_buy_with_stop (qty : ℚ) (entry_type : String)
    (lmt_price : Option ℚ) (stop_price : ℚ) (tif : String)
    (outside_rth : Bool) (dry_run : Bool) (venue_parent_id : ℤ) :
    Except String ((BOrder × BOrder × Option ℤ) × List BOrder) :=
  let parent0 : BOrder := ⟨"BUY", entry_type, qty, tif, none, none, false, none⟩
  let parentE : Except String BOrder :=
    if entry_type = "LMT" then
      match lmt_price with
      | none => .error "lmt_price is required when entry_type is LMT"
      | some lp => .ok { parent0 with lmtPrice := some lp }
    else .ok parent0
  match parentE with
  | .error e => .error e
  | .ok p1 =>
    let parent : BOrder := { p1 with outsideRth := outside_rth }
    let child : BOrder :=
      ⟨"SELL", "STP", qty, tif, none, some stop_price, outside_rth, none⟩
    if dry_run then .ok ((parent, child, none), [])
    else
      let child2 : BOrder := { child with parentId := some venue_parent_id }
      .ok ((parent, child2, some venue_parent_id), [parent, child2])

/-- Evaluation rule for `roundHalfEven` when the fractional part is
below one half. -/
theorem roundHalfEven_eq_of_lt {x : ℚ} {n : ℤ} (h1 : (n : ℚ) ≤ x)
    (h2 : x - n < 1 / 2) : roundHalfEven x = n := by
  have hfl : Int.floor x = n := by
    rw [Int.floor_eq_iff]
    exact ⟨h1, by linarith⟩
  unfold roundHalfEven
  rw [hfl, if_pos h2]

/-- Evaluation rule for `roundHalfEven` when the fractional part is
above one half. -/
theorem roundHalfEven_eq_of_gt {x : ℚ} {n : ℤ} (h1 : 1 / 2 < x - n)
    (h2 : x < n + 1) : roundHalfEven x = n + 1 := by
  have hfl : Int.floor x = n := by
    rw [Int.floor_eq_iff]
    exact ⟨by linarith, h2⟩
  unfold roundHalfEven
  rw [hfl, if_neg (by linarith), if_pos h1]

/-- Evaluation rule for `pyRound2` (rounding down). -/
theorem pyRound2_eq_of_lt {x : ℚ} {n : ℤ} (h1 : (n : ℚ) ≤ x * 100)
    (h2 : x * 100 - n < 1 / 2) : pyRound2 x = (n : ℚ) / 100 := by
  unfold pyRound2
  rw [roundHalfEven_eq_of_lt h1 h2]

/-- Evaluation rule for `pyRound2` (rounding up). -/
theorem pyRound2_eq_of_gt {x : ℚ} {n : ℤ} (h1 : 1 / 2 < x * 100 - n)
    (h2 : x * 100 < n + 1) : pyRound2 x = ((n : ℚ) + 1) / 100 := by
  unfold pyRound2
  rw [roundHalfEven_eq_of_gt h1 h2]
  push_cast
  ring

/-- Helper: the BUY branch of `_calc_limit_from_mark` always returns a
value strictly above the mark, because a rounded value at or below the
mark is replaced by round(mark + 0.01, 2), which lies at least half a
cent above the mark. -/
theorem calc_limit_gt_mark (mark : ℚ) (bps : ℤ) :
    mark < _calc_limit_from_mark mark "BUY" bps := by
  unfold _calc_limit_from_mark
  rw [if_pos rfl]
  split_ifs with h
  · have := pyRound2_ge (mark + 1 / 100)
    linarith
  · exact not_le.mp h

/-- Concrete market-data source for the claim C6 witness: streaming
never yields a ticker; the historical query returns one bar closing
at 5. -/
def emptyTopDS : DataSource :=
  ⟨fun _ _ => none, fun _ => [⟨PFloat.num 5⟩]⟩

/-- Quote snapshot of claim C2: last = -1, bid = NaN, ask = NaN,
close = 0; per the ib_insync conventions the vendor market price is the
last (-1, since there is no bid/ask) and the vendor midpoint is NaN. -/
def sentinelTicker : Ticker :=
  ⟨.num (-1), .nan, .nan, .num 0, .num (-1), .nan⟩

/-- Data source in which every streaming attempt observes
`sentinelTicker`, to show how `get_prices` resolves it. -/
def sentinelDS : DataSource :=
  ⟨fun _ _ => some sentinelTicker, fun _ => []⟩

/-- Ticker with a valid last trade (10), a valid previous close (5) and
a valid vendor market price (7); bid/ask/midpoint absent.  Separates
the extraction order of `safe_price` from the spec's claimed order. -/
def mixedTicker : Ticker :=
  ⟨.num 10, .nan, .nan, .num 5, .num 7, .nan⟩

/-- Claim C1: for reference_price = 100.0, slippage_bps = 15,
stop_pct = 0.06 and take_profit_pct = None, `decide_lmt_stop_take`
returns exactly the triple (limit = 100.15, stop = 94.00,
take_profit = None). -/
theorem C1_decide_lmt_stop_take_scenario :
    decide_lmt_stop_take 100 15 (6 / 100) none =
      (10015 / 100, 94, none) := by
  have h1 : pyRound2 (100 * (1 + ((15 : ℤ) : ℚ) / 10000)) = 10015 / 100 := by
    have h := pyRound2_eq_of_lt (x := 100 * (1 + ((15 : ℤ) : ℚ) / 10000))
      (n := 10015) (by norm_num) (by norm_num)
    rw [h]
    norm_num
  have h2 : pyRound2 (100 * (1 - 6 / 100)) = 94 := by
    have h := pyRound2_eq_of_lt (x := (100 : ℚ) * (1 - 6 / 100))
      (n := 9400) (by norm_num) (by norm_num)
    rw [h]
    norm_num
  show (pyRound2 (100 * (1 + ((15 : ℤ) : ℚ) / 10000)),
        pyRound2 (100 * (1 - 6 / 100)),
        Option.map (fun t => pyRound2 (100 * (1 + t))) none) =
      (10015 / 100, 94, none)
  rw [h1, h2]
  rfl

/-- Claim C2, evaluated on the code: the quote snapshot with last = -1,
bid = NaN, ask = NaN, close = 0 is NOT treated as fully absent —
`safe_price` accepts the zero close (since `_ok_number` rejects only
NaN and -1.0) and the resolver returns price 0 tagged as a streaming
success instead of proceeding to the next strategy. -/
theorem C2_sentinel_snapshot_yields_zero :
    safe_price (some sentinelTicker) = some 0 ∧
    getPriceOne sentinelDS "UVIX" 3 = (some 0, some (PriceSource.top 3)) := by
  have hsp : safe_price (some sentinelTicker) = some 0 := by
    norm_num [safe_price, sentinelTicker, _ok_number, firstOkVal, PFloat.val]
  refine ⟨hsp, ?_⟩
  have hmd : md_try 3 = [3, 4, 1, 2] := rfl
  norm_num [getPriceOne, hmd, tryTop, sentinelDS, hsp]

/-- Claim C3, counterexample: at reference_price = 2.004 (positive) and
slippage_bps = 0 (non-negative), the limit computed by
`decide_lmt_stop_take` is round(2.004, 2) = 2.00, which is strictly
below the reference price, refuting limit >= reference_price. -/
theorem C3_counterexample :
    0 < (501 / 250 : ℚ) ∧ (0 : ℤ) ≤ 0 ∧
    (decide_lmt_stop_take (501 / 250) 0 (6 / 100) none).1 < 501 / 250 := by
  have hl : pyRound2 (501 / 250 * (1 + ((0 : ℤ) : ℚ) / 10000)) = 2 := by
    have h := pyRound2_eq_of_lt (x := 501 / 250 * (1 + ((0 : ℤ) : ℚ) / 10000))
      (n := 200) (by norm_num) (by norm_num)
    rw [h]
    norm_num
  refine ⟨by norm_num, le_refl 0, ?_⟩
  show pyRound2 (501 / 250 * (1 + ((0 : ℤ) : ℚ) / 10000)) < 501 / 250
  rw [hl]
  norm_num

/-- Claim C3, amended: for every positive reference_price and every
non-negative slippage_bps, the limit computed by `decide_lmt_stop_take`
is at least the reference price rounded to the same cent precision
(cent rounding may bring the limit up to half a cent below the raw
reference, so limit >= reference_price itself fails). -/
theorem C3_limit_ge_rounded_reference (ref : ℚ) (bps : ℤ) (p : ℚ)
    (tp : Option ℚ) (href : 0 < ref) (hbps : 0 ≤ bps) :
    pyRound2 ref ≤ (decide_lmt_stop_take ref bps p tp).1 := by
  have hb : (0 : ℚ) ≤ (bps : ℚ) := by exact_mod_cast hbps
  have hraw : ref ≤ ref * (1 + (bps : ℚ) / 10000) := by nlinarith
  simpa [decide_lmt_stop_take] using pyRound2_mono hraw

theorem C3_limit_ge_rounded_reference_witness :
    0 < (100 : ℚ) ∧ (0 : ℤ) ≤ 15 ∧
    pyRound2 100 ≤ (decide_lmt_stop_take 100 15 (6 / 100) none).1 :=
  ⟨by norm_num, by norm_num,
    C3_limit_ge_rounded_reference 100 15 (6 / 100) none (by norm_num)
      (by norm_num)⟩

/-- Claim C4, counterexample: at reference_price = 1.9996 (positive)
and stop_pct = 0.001 (strictly between 0 and 1), the stop computed by
`decide_lmt_stop_take` is round(1.9996 * 0.999, 2) =
round(1.9976004, 2) = 2.00, which is strictly ABOVE the reference
price, refuting stop < reference_price. -/
theorem C4_counterexample :
    0 < (4999 / 2500 : ℚ) ∧ (0 : ℚ) < 1 / 1000 ∧ (1 / 1000 : ℚ) < 1 ∧
    4999 / 2500 <
      (decide_lmt_stop_take (4999 / 2500) 15 (1 / 1000) none).2.1 := by
  have hs : pyRound2 (4999 / 2500 * (1 - 1 / 1000)) = 2 := by
    have h := pyRound2_eq_of_gt (x := 4999 / 2500 * (1 - 1 / 1000))
      (n := 199) (by norm_num) (by norm_num)
    rw [h]
    norm_num
  refine ⟨by norm_num, by norm_num, by norm_num, ?_⟩
  show (4999 / 2500 : ℚ) < pyRound2 (4999 / 2500 * (1 - 1 / 1000))
  rw [hs]
  norm_num

/-- Claim C4, amended: for every positive reference_price and every
stop_pct strictly between 0 and 1, the stop computed by
`decide_lmt_stop_take` is at most the reference price rounded to the
same cent precision (cent rounding may push the stop up to half a cent
above the raw reference, so stop < reference_price itself fails). -/
theorem C4_stop_le_rounded_reference (ref : ℚ) (bps : ℤ) (p : ℚ)
    (tp : Option ℚ) (href : 0 < ref) (hp0 : 0 < p) (hp1 : p < 1) :
    (decide_lmt_stop_take ref bps p tp).2.1 ≤ pyRound2 ref := by
  have hraw : ref * (1 - p) ≤ ref := by nlinarith
  simpa [decide_lmt_stop_take] using pyRound2_mono hraw

theorem C4_stop_le_rounded_reference_witness :
    0 < (100 : ℚ) ∧ (0 : ℚ) < 6 / 100 ∧ (6 / 100 : ℚ) < 1 ∧
    (decide_lmt_stop_take 100 15 (6 / 100) none).2.1 ≤ pyRound2 100 :=
  ⟨by norm_num, by norm_num, by norm_num,
    C4_stop_le_rounded_reference 100 15 (6 / 100) none (by norm_num)
      (by norm_num) (by norm_num)⟩

/-- Claim C5, counterexample: on a snapshot whose last trade is 10 and
whose vendor market price is 7 (both valid), `safe_price` returns the
vendor market price 7, while the claimed precedence (last trade first,
market price last) would return 10 — `safe_price` tries the vendor
market price FIRST, not last. -/
theorem C5_counterexample :
    safe_price (some mixedTicker) = some 7 ∧
    spec_precedence_extract mixedTicker = some 10 ∧
    safe_price (some mixedTicker) ≠ spec_precedence_extract mixedTicker := by
  have h1 : safe_price (some mixedTicker) = some 7 := by
    norm_num [safe_price, mixedTicker, _ok_number, firstOkVal, PFloat.val]
  have h2 : spec_precedence_extract mixedTicker = some 10 := by
    norm_num [spec_precedence_extract, mixedTicker, firstPosVal, pos_number,
      PFloat.val]
  refine ⟨h1, h2, ?_⟩
  rw [h1, h2]
  norm_num

/-- Claim C5, amended: the repository has two extractors with different
fixed precedences.  `safe_price` (the Price Resolver) tries the
vendor-computed market price first, then the midpoint, then the last
trade, then the previous close, accepting the first non-NaN number
other than -1.0; `_underlying_price` (options module) tries the last
trade, then the midpoint of bid/ask (when both are present), then the
previous close, then the vendor market price, accepting the first
finite, strictly positive value. -/
theorem C5_extraction_precedence :
    (∀ t : Ticker, safe_price (some t) =
        firstOkVal [t.marketPrice, t.midpoint, t.last, t.close]) ∧
    (∀ t : Ticker, underlying_price t =
        firstPosVal [t.last, candMid t.bid t.ask, t.close, t.marketPrice]) := by
  constructor
  · intro t
    by_cases h : _ok_number t.marketPrice <;> simp [safe_price, firstOkVal, h]
  · intro t
    rfl

/-- Claim C6: whenever every streaming/snapshot attempt at every
market-data permission level yields no usable price and the one-day
historical bar query succeeds with close c, `get_prices` returns c for
the symbol and tags its source as the historical fallback. -/
theorem C6_hist_fallback (ds : DataSource) (s : String) (dt : ℕ) (c : ℚ)
    (htop : ∀ md, safe_price (ds.ticker s md) = none)
    (hhist : _hist_close (ds.histBars s) = some c) :
    get_prices ds [s] dt = [(s, some c, some PriceSource.hist)] := by
  have hTry : ∀ l : List ℕ, tryTop ds s l = none := by
    intro l
    induction l with
    | nil => rfl
    | cons md rest ih => simp [tryTop, htop md, ih]
  simp [get_prices, getPriceOne, hTry, hhist]

theorem C6_hist_fallback_witness :
    get_prices emptyTopDS ["UVIX"] 3 =
      [("UVIX", some 5, some PriceSource.hist)] :=
  C6_hist_fallback emptyTopDS "UVIX" 3 5 (fun _ => rfl)
    (by norm_num [_hist_close, emptyTopDS])

/-- Claim C7, counterexample: with budget 50, LMT order and mark 120,
the auto-computed limit is 120.06 and budget // limit = 0 (the budget
cannot buy one unit), yet `place_uvix_p_plus_core` does not fail: it
clamps the quantity to 1 and builds a parent BUY order for one unit. -/
theorem C7_counterexample :
    Int.floor ((50 : ℚ) / (6003 / 50)) = 0 ∧
    place_uvix_p_plus_core none (some 50) "LMT" none none 5 none "DAY" 120 =
      .ok ⟨1, some (6003 / 50), none,
        ⟨"BUY", "LMT", 1, some (6003 / 50), "DAY", true⟩, []⟩ := by
  have hcalc : _calc_limit_from_mark 120 "BUY" 5 = 6003 / 50 := by
    have hr : pyRound2 (120 * (1 + ((5 : ℤ) : ℚ) / 10000)) = 6003 / 50 := by
      have h := pyRound2_eq_of_lt (x := 120 * (1 + ((5 : ℤ) : ℚ) / 10000))
        (n := 12006) (by norm_num) (by norm_num)
      rw [h]
      norm_num
    unfold _calc_limit_from_mark
    rw [if_pos rfl, hr]
    rw [if_neg (by norm_num)]
  have hfl : Int.floor ((50 : ℚ) / (6003 / 50)) = 0 := by norm_num
  refine ⟨hfl, ?_⟩
  simp only [place_uvix_p_plus_core, uvix_build, hcalc]
  norm_num [uvix_assemble, hfl, (show max (1 : ℤ) 0 = 1 from rfl)]

/-- Claim C7, amended: `run_covered_call` does fail fast with no order
built when budget // reference_price = 0; `place_uvix_p_plus_order`
does not — it clamps the computed quantity to a minimum of one unit
(qty = int(max(1, budget // ref_px))) and still constructs a one-unit
LMT parent order even when the budget cannot buy one unit. -/
theorem C7_budget_insufficient :
    (∀ (b p ref : ℚ) (bps : ℤ) (pick : Except String OptPick),
        Int.floor (b / ref) = 0 →
        run_covered_call b p (some ref) bps pick = []) ∧
    (∀ (b mark : ℚ) (bps : ℤ) (sp : Option ℚ) (tif : String),
        0 < b → 0 < mark → 0 ≤ bps →
        Int.floor (b / _calc_limit_from_mark mark "BUY" bps) = 0 →
        ∃ r : UvixResult,
          place_uvix_p_plus_core none (some b) "LMT" none none bps sp tif
              mark = .ok r ∧
          r.qty = 1 ∧ r.parent.qty = 1 ∧ r.parent.orderType = "LMT") := by
  constructor
  · intro b p ref bps pick h
    simp [run_covered_call, h]
  · intro b mark bps sp tif hb hm hbps hfloor
    have hlim := calc_limit_gt_mark mark bps
    have hlim0 : 0 < _calc_limit_from_mark mark "BUY" bps := lt_trans hm hlim
    refine ⟨uvix_assemble 1 true (_calc_limit_from_mark mark "BUY" bps)
      sp tif mark, ?_, rfl, rfl, rfl⟩
    simp only [place_uvix_p_plus_core, uvix_build,
      if_neg (not_le.mpr hlim0), if_neg (not_le.mpr hb), if_true]
    rw [hfloor]
    norm_num [(show (1 : ℤ) ⊔ 0 = 1 from rfl)]

theorem C7_budget_insufficient_witness :
    run_covered_call 50 (6 / 100) (some 120) 15 (.error "no pick") = [] ∧
    ∃ r : UvixResult,
      place_uvix_p_plus_core none (some 50) "LMT" none none 5 none "DAY"
          120 = .ok r ∧
      r.qty = 1 ∧ r.parent.qty = 1 ∧ r.parent.orderType = "LMT" :=
  ⟨C7_budget_insufficient.1 50 (6 / 100) 120 15 (.error "no pick")
      (by norm_num),
   C7_budget_insufficient.2 50 120 5 none "DAY" (by norm_num) (by norm_num)
      (by norm_num) (by norm_num [_calc_limit_from_mark, pyRound2,
        roundHalfEven])⟩

/-- Claim C8: with dry_run = true, `bracket_buy_with_stop` submits
nothing to the venue (the placeOrder trace is empty), and both the
parent and the child are returned fully formed with the third tuple
element None. -/
theorem C8_dry_run_no_transmission (qty : ℚ) (entry_type : String)
    (lmt_price : Option ℚ) (stop_price : ℚ) (tif : String)
    (outside_rth : Bool) (vid : ℤ)
    (hassert : entry_type = "LMT" → lmt_price.isSome) :
    ∃ p c : BOrder,
      bracket_buy_with_stop qty entry_type lmt_price stop_price tif
          outside_rth true vid = .ok ((p, c, none), []) ∧
      p.action = "BUY" ∧ p.orderType = entry_type ∧
      p.totalQuantity = qty ∧ p.outsideRth = outside_rth ∧
      c.action = "SELL" ∧ c.orderType = "STP" ∧
      c.auxPrice = some stop_price ∧ c.parentId = none := by
  by_cases he : entry_type = "LMT"
  · subst he
    rcases hlp : lmt_price with _ | lp
    · rw [hlp] at hassert
      exact absurd (hassert rfl) (by simp)
    · subst hlp
      exact ⟨⟨"BUY", "LMT", qty, tif, some lp, none, outside_rth, none⟩,
        ⟨"SELL", "STP", qty, tif, none, some stop_price, outside_rth, none⟩,
        rfl, rfl, rfl, rfl, rfl, rfl, rfl, rfl, rfl⟩
  · refine ⟨⟨"BUY", entry_type, qty, tif, none, none, outside_rth, none⟩,
      ⟨"SELL", "STP", qty, tif, none, some stop_price, outside_rth, none⟩,
      ?_, rfl, rfl, rfl, rfl, rfl, rfl, rfl, rfl⟩
    simp only [bracket_buy_with_stop]
    rw [if_neg he]
    rfl

theorem C8_dry_run_no_transmission_witness :
    ∃ p c : BOrder,
      bracket_buy_with_stop 10 "LMT" (some (10015 / 100)) 94 "DAY" false
          true 7 = .ok ((p, c, none), []) ∧
      p.action = "BUY" ∧ p.orderType = "LMT" ∧
      p.totalQuantity = 10 ∧ p.outsideRth = false ∧
      c.action = "SELL" ∧ c.orderType = "STP" ∧
      c.auxPrice = some 94 ∧ c.parentId = none :=
  C8_dry_run_no_transmission 10 "LMT" (some (10015 / 100)) 94 "DAY" false 7
    (fun _ => rfl)

/-- Claim C9: calling `bracket_buy_with_stop` with entry_type = "LMT"
and lmt_price = None hits the assertion and raises before any order is
returned or submitted (the error result carries no order and an empty
placeOrder trace); with lmt_price supplied the assertion never fires
and the call succeeds. -/
theorem C9_lmt_assertion (qty : ℚ) (stop_price : ℚ) (tif : String)
    (outside_rth : Bool) (dry_run : Bool) (vid : ℤ) :
    bracket_buy_with_stop qty "LMT" none stop_price tif outside_rth
        dry_run vid =
      .error "lmt_price is required when entry_type is LMT" ∧
    ∀ lp : ℚ, ∃ v, bracket_buy_with_stop qty "LMT" (some lp) stop_price tif
        outside_rth dry_run vid = .ok v := by
  constructor
  · rfl
  · intro lp
    cases dry_run
    · exact ⟨_, rfl⟩
    · exact ⟨_, rfl⟩

/-- Claim C10: for every positive mark and non-negative basis-point
slippage, `_calc_limit_from_mark` on the BUY side returns a limit
strictly greater than the mark (the bump to round(mark + 0.01, 2)
covers the case where cent rounding lands at or below the mark). -/
theorem C10_buy_limit_above_mark (mark : ℚ) (bps : ℤ)
    (hm : 0 < mark) (hb : 0 ≤ bps) :
    mark < _calc_limit_from_mark mark "BUY" bps :=
  calc_limit_gt_mark mark bps

theorem C10_buy_limit_above_mark_witness :
    0 < (120 : ℚ) ∧ (0 : ℤ) ≤ 5 ∧
    120 < _calc_limit_from_mark 120 "BUY" 5 :=
  ⟨by norm_num, by norm_num,
    C10_buy_limit_above_mark 120 5 (by norm_num) (by norm_num)⟩
